import Mathlib

/-!
Verification of the zoo_assistant entity-extraction and record-synthesis core.

This file is a shallow embedding of the merge/sort, disambiguation/synthesis
and draft-to-record mapping logic of
`zoo_assistant/core_engine/ner/entity_extraction.py` and
`zoo_assistant/core_engine/processing_pipeline.py`.

Modelling conventions:
* Python strings are modelled as `List Char` (both Python and Lean index
  strings by Unicode code points, so offsets agree).
* Python `float` values produced by parsing decimal literals are modelled as
  exact rationals `ℚ`; every numeric literal appearing in the verified
  properties (42, 2.5, 35, 22, ...) is exactly representable as a 64-bit
  float, so the model and the program agree on them.
* `None` becomes `Option.none`; Python truthiness (`or`, `any`, `if x:`) is
  modelled explicitly by `truthyStr` / `truthyNum` below.
* The span extractors (Natasha statistical annotator, yargy lexicon
  grammars, regexes) call external libraries; they enter the model at their
  interface, as entity lists handed to the merge/sort and synthesis stages,
  exactly as spec §6 treats the statistical annotator.
-/

namespace ZooAssistant

/-- Entity record, from `Entity(BaseModel)` in entity_extraction.py
(fields `text`, `type`, `start`, `end`, `value`, `normalized`; the `end`
field is named `stop` here because `end` is a Lean keyword). -/
structure Entity where
  text : String
  type : String
  start : Nat
  stop : Nat
  value : Option ℚ := none
  normalized : Option String := none
deriving Repr, DecidableEq

/-- The `measurements` sub-dictionary of the structured draft built by
`extract_animal_info`. -/
structure Measurements where
  weight : Option ℚ := none
  length : Option ℚ := none
  temperature : Option ℚ := none
  age : Option ℚ := none
deriving Repr, DecidableEq

/-- The `feeding` sub-dictionary of the structured draft. -/
structure FeedingInfo where
  food_type : Option String := none
  quantity : Option ℚ := none
deriving Repr, DecidableEq

/-- The `environment` sub-dictionary of the structured draft. -/
structure EnvironmentInfo where
  temperature : Option ℚ := none
  humidity : Option ℚ := none
deriving Repr, DecidableEq

/-- The structured draft (`result` dictionary of `extract_animal_info`,
entity_extraction.py lines 312-332). -/
structure Draft where
  name : Option String := none
  species : Option String := none
  measurements : Measurements := {}
  behavior : Option String := none
  health_status : Option String := none
  feeding : FeedingInfo := {}
  environment : EnvironmentInfo := {}
  entities : List Entity := []
deriving Repr, DecidableEq

/-! ### Numeric value extraction (`EntityExtractor._extract_numeric_value`) -/

/-- Split a leading run of decimal digits off a character list. -/
def takeDigits : List Char → List Char × List Char
  | [] => ([], [])
  | c :: cs =>
    if c.isDigit then
      let p := takeDigits cs
      (c :: p.1, p.2)
    else ([], c :: cs)

/-- Value of a digit string read in base 10. -/
def digitsToNat (ds : List Char) : Nat :=
  ds.foldl (fun a c => 10 * a + (c.toNat - 48)) 0

/-- The text matched by the regex `\d+[.,]?\d*` when anchored at a position
where a digit starts: a maximal digit run, then (greedily) one optional `.`
or `,`, then a maximal (possibly empty) digit run. -/
def matchNumber (s : List Char) : List Char :=
  let p := takeDigits s
  match p.2 with
  | c :: cs =>
    if c = '.' ∨ c = ',' then p.1 ++ c :: (takeDigits cs).1
    else p.1
  | [] => p.1

/-- Leftmost match of `\d+[.,]?\d*` in a character list, as produced by
`re.findall(r'\d+[.,]?\d*', match_text)[0]`: scan to the first digit and
match there. -/
def findFirstNumber : List Char → Option (List Char)
  | [] => none
  | c :: cs => if c.isDigit then some (matchNumber (c :: cs)) else findFirstNumber cs

/-- Python `float()` applied to the matched numeric literal after
`replace(',', '.')`: integer part, and fractional part if a separator is
present (the separator character itself is irrelevant to the value, which
is why the model can absorb the `replace`).  The result is modelled as an
exact rational. -/
def parseFloat (s : List Char) : ℚ :=
  let p := takeDigits s
  match p.2 with
  | _ :: cs =>
    let frac := (takeDigits cs).1
    (digitsToNat p.1 : ℚ) + (digitsToNat frac : ℚ) / (10 ^ frac.length : ℚ)
  | [] => (digitsToNat p.1 : ℚ)

/-- `EntityExtractor._extract_numeric_value` (entity_extraction.py lines
139-146): find all `\d+[.,]?\d*` matches, convert the first to float with
`,` normalised to `.`; `None` when the text has no digits. -/
def extract_numeric_value (match_text : String) : Option ℚ :=
  match findFirstNumber match_text.toList with
  | some tok => some (parseFloat tok)
  | none => none

/-! ### Merge & sort (`EntityExtractor.extract_entities`, lines 285-305)

The three extractor stages call external libraries (Natasha, yargy,
regexes); the merge/sort stage receives their outputs as lists.  Python's
`list.sort(key=lambda e: e.start)` is a stable sort by the `start` key;
a stable sort with respect to a total preorder has a unique result, so it
is embedded by insertion sort, which is stable. -/

/-- Comparison used by `entities.sort(key=lambda e: e.start)`. -/
def entityLe (a b : Entity) : Prop := a.start ≤ b.start

instance : DecidableRel entityLe := fun a b => Nat.decLe a.start b.start

instance : IsTotal Entity entityLe := ⟨fun a b => Nat.le_total a.start b.start⟩

instance : IsTrans Entity entityLe := ⟨fun _ _ _ h1 h2 => Nat.le_trans h1 h2⟩

/-- `EntityExtractor.extract_entities`: concatenate the statistical
(Natasha), lexicon (yargy) and regex extractor outputs in that order, then
stable-sort ascending by `start`. -/
def extract_entities (natasha_entities custom_entities regex_entities : List Entity) :
    List Entity :=
  List.insertionSort entityLe (natasha_entities ++ custom_entities ++ regex_entities)

/-! ### Disambiguation & synthesis (`EntityExtractor.extract_animal_info`) -/

/-- Whether `pattern` is a prefix of `l` (character-wise). -/
def startsWithP : List Char → List Char → Bool
  | [], _ => true
  | _ :: _, [] => false
  | p :: ps, c :: cs => p = c && startsWithP ps cs

/-- Whether `pattern` occurs as a contiguous substring of `l`
(Python `pattern in l`). -/
def hasSub (pattern : List Char) : List Char → Bool
  | [] => pattern.isEmpty
  | c :: cs => startsWithP pattern (c :: cs) || hasSub pattern cs

/-- Python slice `text[max(0, start-10) : stop+10]` (entity_extraction.py
line 357); `Nat` subtraction truncates at 0 exactly like the `max` and
`take` clamps at the text length exactly like Python slicing. -/
def contextWindow (text : List Char) (start stop : Nat) : List Char :=
  (text.drop (start - 10)).take (stop + 10 - (start - 10))

/-- The body-reference test `'тела' in text[max(0, entity.start-10):entity.end+10]`. -/
def hasBodyMarker (text : List Char) (entity : Entity) : Bool :=
  hasSub "тела".toList (contextWindow text entity.start entity.stop)

/-- One iteration of the synthesis loop of `extract_animal_info`
(entity_extraction.py lines 335-378): a chain of `elif` branches on
`entity.type`.  Every branch except the temperature one only assigns a
field when it is still `None`; the temperature branch assigns
unconditionally, routed by the body marker. -/
def applyEntity (text : List Char) (result : Draft) (entity : Entity) : Draft :=
  if entity.type = "person" then
    if result.name = none then { result with name := some entity.text } else result
  else if entity.type = "animal_species" then
    if result.species = none then { result with species := some entity.text } else result
  else if entity.type = "weight" then
    if result.measurements.weight = none then
      { result with measurements := { result.measurements with weight := entity.value } }
    else result
  else if entity.type = "length" then
    if result.measurements.length = none then
      { result with measurements := { result.measurements with length := entity.value } }
    else result
  else if entity.type = "temperature" then
    if hasBodyMarker text entity then
      { result with measurements := { result.measurements with temperature := entity.value } }
    else
      { result with environment := { result.environment with temperature := entity.value } }
  else if entity.type = "age" then
    if result.measurements.age = none then
      { result with measurements := { result.measurements with age := entity.value } }
    else result
  else if entity.type = "behavior" then
    if result.behavior = none then { result with behavior := some entity.text } else result
  else if entity.type = "health_status" then
    if result.health_status = none then
      { result with health_status := some entity.text }
    else result
  else if entity.type = "food" then
    if result.feeding.food_type = none then
      { result with feeding := { result.feeding with food_type := some entity.text } }
    else result
  else result

/-- Distance `abs(a - b)` on natural offsets. -/
def natDist (a b : Nat) : Nat := max a b - min a b

/-- The post-pass proximity join for feeding quantity (entity_extraction.py
lines 380-387): take the first `food` entity, if any, then the first
`weight` entity whose start is strictly within 20 positions of the food
entity's start; its `value` is assigned to `feeding.quantity`. -/
def feedingQuantityJoin (entities : List Entity) (result : Draft) : Draft :=
  match entities.find? (fun e => e.type == "food") with
  | none => result
  | some food_entity =>
    match entities.find?
        (fun e => e.type == "weight" && natDist e.start food_entity.start < 20) with
    | none => result
    | some we => { result with feeding := { result.feeding with quantity := we.value } }

/-- The fresh draft of `extract_animal_info` lines 312-332 (all fields
`None`, audit trail `entities` attached). -/
def initDraft (entities : List Entity) : Draft := { entities := entities }

/-- `EntityExtractor.extract_animal_info`, lines 307-389, with the entity
sequence it iterates over passed explicitly (in the program it is
`extract_entities(text)`, whose extractors are external collaborators):
single forward pass followed by the feeding-quantity proximity join. -/
def extract_animal_info (text : List Char) (entities : List Entity) : Draft :=
  feedingQuantityJoin entities (entities.foldl (applyEntity text) (initDraft entities))

/-! ### Draft-to-record mapper (`ProcessingPipeline._prepare_db_records`,
processing_pipeline.py lines 82-149) -/

/-- Python truthiness of an optional string: `None` and `""` are falsy. -/
def truthyStr : Option String → Bool
  | none => false
  | some s => !s.isEmpty

/-- Python truthiness of an optional float: `None` and `0.0` are falsy. -/
def truthyNum : Option ℚ → Bool
  | none => false
  | some q => !(q == 0)

/-- Python `x or "Unknown"` on an optional string. -/
def orUnknown (v : Option String) : String :=
  match v with
  | none => "Unknown"
  | some s => if s.isEmpty then "Unknown" else s

/-- Character-wise lowering as performed by `str.lower()`, covering the
ASCII and Cyrillic ranges that occur in this program's texts (both Python
and this model leave other characters unchanged on those inputs). -/
def lowerChar (c : Char) : Char :=
  if 65 ≤ c.toNat ∧ c.toNat ≤ 90 then Char.ofNat (c.toNat + 32)
  else if 0x410 ≤ c.toNat ∧ c.toNat ≤ 0x42F then Char.ofNat (c.toNat + 32)
  else if c.toNat = 0x401 then Char.ofNat 0x451
  else c

/-- Helper for `str.find(pattern)`: first index at or after `i` where
`pattern` starts in the remaining list. -/
def findSubFrom (pattern : List Char) : List Char → Nat → Option Nat
  | [], i => if pattern.isEmpty then some i else none
  | c :: cs, i =>
    if startsWithP pattern (c :: cs) then some i else findSubFrom pattern cs (i + 1)

/-- Python `text.find(pattern)` returning `none` instead of `-1`. -/
def findSub (pattern l : List Char) : Option Nat := findSubFrom pattern l 0

/-- Python `text.find(ch, start)` returning `none` instead of `-1`. -/
def findCharFrom (l : List Char) (c : Char) (i : Nat) : Option Nat :=
  match (l.drop i).findIdx? (fun d => d == c) with
  | some j => some (i + j)
  | none => none

/-- Whitespace stripped by `str.strip()` (the forms occurring in this
program's texts). -/
def isPySpace (c : Char) : Bool := c = ' ' || c = '\t' || c = '\n' || c = '\r'

/-- Python `str.strip()`. -/
def pyStrip (l : List Char) : List Char :=
  ((l.dropWhile isPySpace).reverse.dropWhile isPySpace).reverse

/-- Python `os.path.basename` for POSIX paths: the component after the
last `/`. -/
def basename (p : String) : String := (p.splitOn "/").getLastD ""

/-- The fixed introductory phrase marker of the fallback heuristic
(processing_pipeline.py line 91). -/
def observationPattern : List Char := "наблюдение за".toList

/-- The `animal` record of `_prepare_db_records`. -/
structure AnimalRecord where
  name : String
  species : String
deriving Repr, DecidableEq

/-- The `observation` record of `_prepare_db_records`. -/
structure ObservationRecord where
  behavior : Option String
  health_status : Option String
  notes : List Char
  audio_file : String
  transcription : List Char
  temperature : Option ℚ
  humidity : Option ℚ
deriving Repr, DecidableEq

/-- The `measurement` record of `_prepare_db_records` (note: no `age`
field; `height` is hard-coded to `None`, "Not extracted yet"). -/
structure MeasurementRecord where
  weight : Option ℚ
  length : Option ℚ
  height : Option ℚ
  temperature : Option ℚ
deriving Repr, DecidableEq

/-- The `feeding` record of `_prepare_db_records`.  The source builds
`food_type` with `feeding.get('food_type', "Unknown")`; the key is always
present in the draft dictionary, so the `"Unknown"` default is dead and the
stored value is the draft's (possibly `None`) `food_type`. -/
structure FeedingRecord where
  food_type : Option String
  quantity : Option ℚ
  notes : Option String
deriving Repr, DecidableEq

/-- The dictionary returned by `_prepare_db_records`. -/
structure DbRecords where
  animal : AnimalRecord
  observation : ObservationRecord
  measurement : Option MeasurementRecord
  feeding : Option FeedingRecord
deriving Repr, DecidableEq

/-- The marker search of the species fallback heuristic,
processing_pipeline.py lines 91-101: search the lowercased transcription
for the marker; if found, take the text after it up to the first `.`
(falling back to the first `,` only when no `.` occurs anywhere after the
marker, else the end of text) and strip it. -/
def markerText (transcription : List Char) : Option (List Char) :=
  match findSub observationPattern (transcription.map lowerChar) with
  | none => none
  | some idx =>
    let start_idx := idx + observationPattern.length
    let end_idx :=
      match findCharFrom transcription '.' start_idx with
      | some j => j
      | none =>
        match findCharFrom transcription ',' start_idx with
        | some j => j
        | none => transcription.length
    some (pyStrip ((transcription.drop start_idx).take (end_idx - start_idx)))

/-- Lines 88-104 continued: the guarded assignment
`if animal_text and not animal_species: animal_species = animal_text`. -/
def fallbackSpecies (animal_name animal_species : Option String)
    (transcription : List Char) : Option String :=
  if !truthyStr animal_name || !truthyStr animal_species then
    match markerText transcription with
    | none => animal_species
    | some animal_text =>
      if !animal_text.isEmpty && !truthyStr animal_species then some (String.mk animal_text)
      else animal_species
  else animal_species

/-- `ProcessingPipeline._prepare_db_records` (processing_pipeline.py lines
82-149): species fallback heuristic, then the four records. -/
def prepare_db_records (structured_data : Draft) (audio_path : String)
    (transcription : List Char) : DbRecords :=
  let animal_name := structured_data.name
  let animal_species :=
    fallbackSpecies structured_data.name structured_data.species transcription
  let animal_record : AnimalRecord :=
    { name := orUnknown animal_name, species := orUnknown animal_species }
  let observation_record : ObservationRecord :=
    { behavior := structured_data.behavior
      health_status := structured_data.health_status
      notes := transcription
      audio_file := basename audio_path
      transcription := transcription
      temperature := structured_data.environment.temperature
      humidity := structured_data.environment.humidity }
  let m := structured_data.measurements
  let measurement_record : Option MeasurementRecord :=
    if truthyNum m.weight || truthyNum m.length || truthyNum m.temperature || truthyNum m.age then
      some { weight := m.weight, length := m.length, height := none, temperature := m.temperature }
    else none
  let f := structured_data.feeding
  let feeding_record : Option FeedingRecord :=
    if truthyStr f.food_type || truthyNum f.quantity then
      some { food_type := f.food_type, quantity := f.quantity, notes := none }
    else none
  { animal := animal_record
    observation := observation_record
    measurement := measurement_record
    feeding := feeding_record }

/-! ### Slot characterisation of the synthesis pass

Helper definitions naming the entity that a draft slot ends up holding:
the first entity of a kind (text slots), the first non-null value of a
kind (guarded numeric slots), or the last routed temperature entity
(the unguarded temperature slots). -/

/-- Text payload of the first entity of kind `k` in the sequence. -/
def firstText (k : String) (l : List Entity) : Option String :=
  (l.find? (fun e => e.type == k)).map Entity.text

/-- First non-null numeric payload among the entities of kind `k`. -/
def firstVal (k : String) (l : List Entity) : Option ℚ :=
  (l.filterMap (fun e => if e.type == k then e.value else none)).head?

/-- Temperature entity routed to `measurements.temperature` (body marker in
its context window). -/
def isBodyTempB (text : List Char) (e : Entity) : Bool :=
  e.type == "temperature" && hasBodyMarker text e

/-- Temperature entity routed to `environment.temperature` (no body marker
in its context window). -/
def isEnvTempB (text : List Char) (e : Entity) : Bool :=
  e.type == "temperature" && !(hasBodyMarker text e)

lemma applyEntity_name (text : List Char) (r : Draft) (e : Entity) :
    (applyEntity text r e).name =
      if e.type = "person" ∧ r.name = none then some e.text else r.name := by
  rw [ite_and]
  simp only [applyEntity, apply_ite Draft.name, ite_self]

lemma applyEntity_species (text : List Char) (r : Draft) (e : Entity) :
    (applyEntity text r e).species =
      if e.type = "animal_species" ∧ r.species = none then some e.text else r.species := by
  by_cases hk : e.type = "animal_species" <;>
    simp [applyEntity, hk, apply_ite Draft.species, ite_self]

lemma applyEntity_behavior (text : List Char) (r : Draft) (e : Entity) :
    (applyEntity text r e).behavior =
      if e.type = "behavior" ∧ r.behavior = none then some e.text else r.behavior := by
  by_cases hk : e.type = "behavior" <;>
    simp [applyEntity, hk, apply_ite Draft.behavior, ite_self]

lemma applyEntity_health (text : List Char) (r : Draft) (e : Entity) :
    (applyEntity text r e).health_status =
      if e.type = "health_status" ∧ r.health_status = none then some e.text
      else r.health_status := by
  by_cases hk : e.type = "health_status" <;>
    simp [applyEntity, hk, apply_ite Draft.health_status, ite_self]

lemma applyEntity_food (text : List Char) (r : Draft) (e : Entity) :
    (applyEntity text r e).feeding.food_type =
      if e.type = "food" ∧ r.feeding.food_type = none then some e.text
      else r.feeding.food_type := by
  by_cases hk : e.type = "food" <;>
    simp [applyEntity, hk, apply_ite Draft.feeding, apply_ite FeedingInfo.food_type, ite_self]

lemma applyEntity_weight (text : List Char) (r : Draft) (e : Entity) :
    (applyEntity text r e).measurements.weight =
      if e.type = "weight" ∧ r.measurements.weight = none then e.value
      else r.measurements.weight := by
  by_cases hk : e.type = "weight" <;>
    simp [applyEntity, hk, apply_ite Draft.measurements, apply_ite Measurements.weight, ite_self]

lemma applyEntity_length (text : List Char) (r : Draft) (e : Entity) :
    (applyEntity text r e).measurements.length =
      if e.type = "length" ∧ r.measurements.length = none then e.value
      else r.measurements.length := by
  by_cases hk : e.type = "length" <;>
    simp [applyEntity, hk, apply_ite Draft.measurements, apply_ite Measurements.length, ite_self]

lemma applyEntity_age (text : List Char) (r : Draft) (e : Entity) :
    (applyEntity text r e).measurements.age =
      if e.type = "age" ∧ r.measurements.age = none then e.value
      else r.measurements.age := by
  by_cases hk : e.type = "age" <;>
    simp [applyEntity, hk, apply_ite Draft.measurements, apply_ite Measurements.age, ite_self]

lemma applyEntity_meas_temp (text : List Char) (r : Draft) (e : Entity) :
    (applyEntity text r e).measurements.temperature =
      if e.type = "temperature" ∧ hasBodyMarker text e then e.value
      else r.measurements.temperature := by
  by_cases hk : e.type = "temperature" <;>
    simp [applyEntity, hk, apply_ite Draft.measurements, apply_ite Measurements.temperature,
      ite_self]

lemma applyEntity_env_temp (text : List Char) (r : Draft) (e : Entity) :
    (applyEntity text r e).environment.temperature =
      if e.type = "temperature" ∧ ¬ hasBodyMarker text e then e.value
      else r.environment.temperature := by
  by_cases hk : e.type = "temperature" <;>
    simp [applyEntity, hk, apply_ite Draft.environment, apply_ite EnvironmentInfo.temperature,
      ite_self] <;>
    cases hasBodyMarker text e <;> simp

lemma applyEntity_quantity (text : List Char) (r : Draft) (e : Entity) :
    (applyEntity text r e).feeding.quantity = r.feeding.quantity := by
  simp only [applyEntity, apply_ite Draft.feeding, apply_ite FeedingInfo.quantity, ite_self]

lemma applyEntity_humidity (text : List Char) (r : Draft) (e : Entity) :
    (applyEntity text r e).environment.humidity = r.environment.humidity := by
  simp only [applyEntity, apply_ite Draft.environment, apply_ite EnvironmentInfo.humidity,
    ite_self]

lemma applyEntity_entities (text : List Char) (r : Draft) (e : Entity) :
    (applyEntity text r e).entities = r.entities := by
  simp only [applyEntity, apply_ite Draft.entities, ite_self]

lemma isBodyTempB_eq_true (text : List Char) (e : Entity) :
    isBodyTempB text e = true ↔ (e.type = "temperature" ∧ hasBodyMarker text e = true) := by
  simp [isBodyTempB]

lemma isEnvTempB_eq_true (text : List Char) (e : Entity) :
    isEnvTempB text e = true ↔ (e.type = "temperature" ∧ ¬ hasBodyMarker text e = true) := by
  simp [isEnvTempB]

lemma synth_name (text : List Char) : ∀ (l : List Entity) (r : Draft),
    (l.foldl (applyEntity text) r).name =
      match r.name with
      | some v => some v
      | none => firstText "person" l
  | [], r => by cases hn : r.name <;> simp [firstText, hn]
  | e :: es, r => by
    rw [List.foldl_cons, synth_name text es]
    by_cases hk : e.type = "person" <;>
      cases hn : r.name <;>
      simp [applyEntity_name, hk, hn, firstText, List.find?_cons]

lemma synth_species (text : List Char) : ∀ (l : List Entity) (r : Draft),
    (l.foldl (applyEntity text) r).species =
      match r.species with
      | some v => some v
      | none => firstText "animal_species" l
  | [], r => by cases hn : r.species <;> simp [firstText, hn]
  | e :: es, r => by
    rw [List.foldl_cons, synth_species text es]
    by_cases hk : e.type = "animal_species" <;>
      cases hn : r.species <;>
      simp [applyEntity_species, hk, hn, firstText, List.find?_cons]

lemma synth_behavior (text : List Char) : ∀ (l : List Entity) (r : Draft),
    (l.foldl (applyEntity text) r).behavior =
      match r.behavior with
      | some v => some v
      | none => firstText "behavior" l
  | [], r => by cases hn : r.behavior <;> simp [firstText, hn]
  | e :: es, r => by
    rw [List.foldl_cons, synth_behavior text es]
    by_cases hk : e.type = "behavior" <;>
      cases hn : r.behavior <;>
      simp [applyEntity_behavior, hk, hn, firstText, List.find?_cons]

lemma synth_health (text : List Char) : ∀ (l : List Entity) (r : Draft),
    (l.foldl (applyEntity text) r).health_status =
      match r.health_status with
      | some v => some v
      | none => firstText "health_status" l
  | [], r => by cases hn : r.health_status <;> simp [firstText, hn]
  | e :: es, r => by
    rw [List.foldl_cons, synth_health text es]
    by_cases hk : e.type = "health_status" <;>
      cases hn : r.health_status <;>
      simp [applyEntity_health, hk, hn, firstText, List.find?_cons]

lemma synth_food (text : List Char) : ∀ (l : List Entity) (r : Draft),
    (l.foldl (applyEntity text) r).feeding.food_type =
      match r.feeding.food_type with
      | some v => some v
      | none => firstText "food" l
  | [], r => by cases hn : r.feeding.food_type <;> simp [firstText, hn]
  | e :: es, r => by
    rw [List.foldl_cons, synth_food text es]
    by_cases hk : e.type = "food" <;>
      cases hn : r.feeding.food_type <;>
      simp [applyEntity_food, hk, hn, firstText, List.find?_cons]

lemma synth_weight (text : List Char) : ∀ (l : List Entity) (r : Draft),
    (l.foldl (applyEntity text) r).measurements.weight =
      match r.measurements.weight with
      | some v => some v
      | none => firstVal "weight" l
  | [], r => by cases hn : r.measurements.weight <;> simp [firstVal, hn]
  | e :: es, r => by
    rw [List.foldl_cons, synth_weight text es]
    by_cases hk : e.type = "weight" <;>
      cases hn : r.measurements.weight <;>
      cases hv : e.value <;>
      simp [applyEntity_weight, hk, hn, hv, firstVal, List.filterMap_cons]

lemma synth_length (text : List Char) : ∀ (l : List Entity) (r : Draft),
    (l.foldl (applyEntity text) r).measurements.length =
      match r.measurements.length with
      | some v => some v
      | none => firstVal "length" l
  | [], r => by cases hn : r.measurements.length <;> simp [firstVal, hn]
  | e :: es, r => by
    rw [List.foldl_cons, synth_length text es]
    by_cases hk : e.type = "length" <;>
      cases hn : r.measurements.length <;>
      cases hv : e.value <;>
      simp [applyEntity_length, hk, hn, hv, firstVal, List.filterMap_cons]

lemma synth_age (text : List Char) : ∀ (l : List Entity) (r : Draft),
    (l.foldl (applyEntity text) r).measurements.age =
      match r.measurements.age with
      | some v => some v
      | none => firstVal "age" l
  | [], r => by cases hn : r.measurements.age <;> simp [firstVal, hn]
  | e :: es, r => by
    rw [List.foldl_cons, synth_age text es]
    by_cases hk : e.type = "age" <;>
      cases hn : r.measurements.age <;>
      cases hv : e.value <;>
      simp [applyEntity_age, hk, hn, hv, firstVal, List.filterMap_cons]

lemma synth_meas_temp (text : List Char) : ∀ (l : List Entity) (r : Draft),
    (l.foldl (applyEntity text) r).measurements.temperature =
      match l.reverse.find? (isBodyTempB text) with
      | some e => e.value
      | none => r.measurements.temperature
  | [], r => by simp
  | e :: es, r => by
    rw [List.foldl_cons, synth_meas_temp text es, List.reverse_cons, List.find?_append]
    cases hf : es.reverse.find? (isBodyTempB text) with
    | some x => simp [hf]
    | none =>
      by_cases hb : isBodyTempB text e = true
      · have hb2 := (isBodyTempB_eq_true text e).mp hb
        simp [hf, applyEntity_meas_temp, hb, hb2, List.find?_cons]
      · have hb2 : ¬ (e.type = "temperature" ∧ hasBodyMarker text e = true) := by
          intro h
          exact hb ((isBodyTempB_eq_true text e).mpr h)
        simp [hf, applyEntity_meas_temp, hb, hb2, List.find?_cons]

lemma synth_env_temp (text : List Char) : ∀ (l : List Entity) (r : Draft),
    (l.foldl (applyEntity text) r).environment.temperature =
      match l.reverse.find? (isEnvTempB text) with
      | some e => e.value
      | none => r.environment.temperature
  | [], r => by simp
  | e :: es, r => by
    rw [List.foldl_cons, synth_env_temp text es, List.reverse_cons, List.find?_append]
    cases hf : es.reverse.find? (isEnvTempB text) with
    | some x => simp [hf]
    | none =>
      by_cases hb : isEnvTempB text e = true
      · have hb2 := (isEnvTempB_eq_true text e).mp hb
        simp [hf, applyEntity_env_temp, hb, hb2, List.find?_cons]
      · have hb2 : ¬ (e.type = "temperature" ∧ ¬ hasBodyMarker text e = true) := by
          intro h
          exact hb ((isEnvTempB_eq_true text e).mpr h)
        simp [hf, applyEntity_env_temp, hb, hb2, List.find?_cons]
        intro h1 h2
        exact absurd ⟨h1, by simp [h2]⟩ hb2

lemma synth_quantity (text : List Char) : ∀ (l : List Entity) (r : Draft),
    (l.foldl (applyEntity text) r).feeding.quantity = r.feeding.quantity
  | [], _ => rfl
  | e :: es, r => by
    rw [List.foldl_cons, synth_quantity text es, applyEntity_quantity]

lemma synth_humidity (text : List Char) : ∀ (l : List Entity) (r : Draft),
    (l.foldl (applyEntity text) r).environment.humidity = r.environment.humidity
  | [], _ => rfl
  | e :: es, r => by
    rw [List.foldl_cons, synth_humidity text es, applyEntity_humidity]

lemma synth_entities (text : List Char) : ∀ (l : List Entity) (r : Draft),
    (l.foldl (applyEntity text) r).entities = r.entities
  | [], _ => rfl
  | e :: es, r => by
    rw [List.foldl_cons, synth_entities text es, applyEntity_entities]

/-- The quantity produced by the proximity join, as a function of the
entity sequence and the quantity before the join. -/
def joinQuantity (entities : List Entity) (q : Option ℚ) : Option ℚ :=
  match entities.find? (fun e => e.type == "food") with
  | none => q
  | some food_entity =>
    match entities.find?
        (fun e => e.type == "weight" && natDist e.start food_entity.start < 20) with
    | none => q
    | some we => we.value

lemma feedingQuantityJoin_eq (entities : List Entity) (r : Draft) :
    feedingQuantityJoin entities r =
      { r with feeding :=
          { r.feeding with quantity := joinQuantity entities r.feeding.quantity } } := by
  unfold feedingQuantityJoin joinQuantity
  cases h1 : entities.find? (fun e => e.type == "food") with
  | none => rfl
  | some fe =>
    dsimp only
    cases h2 : entities.find?
        (fun e => e.type == "weight" && natDist e.start fe.start < 20) with
    | none => rfl
    | some we => rfl

lemma extract_name (text : List Char) (l : List Entity) :
    (extract_animal_info text l).name = firstText "person" l := by
  unfold extract_animal_info
  rw [feedingQuantityJoin_eq]
  show (l.foldl (applyEntity text) (initDraft l)).name = _
  rw [synth_name]
  rfl

lemma extract_species (text : List Char) (l : List Entity) :
    (extract_animal_info text l).species = firstText "animal_species" l := by
  unfold extract_animal_info
  rw [feedingQuantityJoin_eq]
  show (l.foldl (applyEntity text) (initDraft l)).species = _
  rw [synth_species]
  rfl

lemma extract_behavior (text : List Char) (l : List Entity) :
    (extract_animal_info text l).behavior = firstText "behavior" l := by
  unfold extract_animal_info
  rw [feedingQuantityJoin_eq]
  show (l.foldl (applyEntity text) (initDraft l)).behavior = _
  rw [synth_behavior]
  rfl

lemma extract_health (text : List Char) (l : List Entity) :
    (extract_animal_info text l).health_status = firstText "health_status" l := by
  unfold extract_animal_info
  rw [feedingQuantityJoin_eq]
  show (l.foldl (applyEntity text) (initDraft l)).health_status = _
  rw [synth_health]
  rfl

lemma extract_food (text : List Char) (l : List Entity) :
    (extract_animal_info text l).feeding.food_type = firstText "food" l := by
  unfold extract_animal_info
  rw [feedingQuantityJoin_eq]
  show (l.foldl (applyEntity text) (initDraft l)).feeding.food_type = _
  rw [synth_food]
  rfl

lemma extract_weight (text : List Char) (l : List Entity) :
    (extract_animal_info text l).measurements.weight = firstVal "weight" l := by
  unfold extract_animal_info
  rw [feedingQuantityJoin_eq]
  show (l.foldl (applyEntity text) (initDraft l)).measurements.weight = _
  rw [synth_weight]
  rfl

lemma extract_length (text : List Char) (l : List Entity) :
    (extract_animal_info text l).measurements.length = firstVal "length" l := by
  unfold extract_animal_info
  rw [feedingQuantityJoin_eq]
  show (l.foldl (applyEntity text) (initDraft l)).measurements.length = _
  rw [synth_length]
  rfl

lemma extract_age (text : List Char) (l : List Entity) :
    (extract_animal_info text l).measurements.age = firstVal "age" l := by
  unfold extract_animal_info
  rw [feedingQuantityJoin_eq]
  show (l.foldl (applyEntity text) (initDraft l)).measurements.age = _
  rw [synth_age]
  rfl

lemma extract_meas_temp (text : List Char) (l : List Entity) :
    (extract_animal_info text l).measurements.temperature =
      match l.reverse.find? (isBodyTempB text) with
      | some e => e.value
      | none => none := by
  unfold extract_animal_info
  rw [feedingQuantityJoin_eq]
  show (l.foldl (applyEntity text) (initDraft l)).measurements.temperature = _
  rw [synth_meas_temp]
  rfl

lemma extract_env_temp (text : List Char) (l : List Entity) :
    (extract_animal_info text l).environment.temperature =
      match l.reverse.find? (isEnvTempB text) with
      | some e => e.value
      | none => none := by
  unfold extract_animal_info
  rw [feedingQuantityJoin_eq]
  show (l.foldl (applyEntity text) (initDraft l)).environment.temperature = _
  rw [synth_env_temp]
  rfl

lemma extract_quantity (text : List Char) (l : List Entity) :
    (extract_animal_info text l).feeding.quantity = joinQuantity l none := by
  unfold extract_animal_info
  rw [feedingQuantityJoin_eq]
  show joinQuantity l (l.foldl (applyEntity text) (initDraft l)).feeding.quantity = _
  rw [synth_quantity]
  rfl

lemma extract_humidity (text : List Char) (l : List Entity) :
    (extract_animal_info text l).environment.humidity = none := by
  unfold extract_animal_info
  rw [feedingQuantityJoin_eq]
  show (l.foldl (applyEntity text) (initDraft l)).environment.humidity = _
  rw [synth_humidity]
  rfl

/-! ### Stability of the merge-and-sort stage -/

lemma orderedInsert_filter_start (a : Entity) (s : Nat) : ∀ l : List Entity,
    (List.orderedInsert entityLe a l).filter (fun e => e.start == s) =
      if a.start = s then a :: l.filter (fun e => e.start == s)
      else l.filter (fun e => e.start == s)
  | [] => by by_cases h : a.start = s <;> simp [List.orderedInsert, h]
  | b :: bs => by
    rw [List.orderedInsert]
    by_cases hle : entityLe a b
    · rw [if_pos hle]
      by_cases h : a.start = s <;> simp [h, List.filter_cons]
    · rw [if_neg hle]
      have hlt : b.start < a.start := by
        simpa [entityLe] using hle
      by_cases h : a.start = s
      · have hb : ¬ b.start = s := by omega
        simp [List.filter_cons, hb, orderedInsert_filter_start a s bs, h]
      · by_cases hb : b.start = s <;>
          simp [List.filter_cons, hb, orderedInsert_filter_start a s bs, h]

lemma insertionSort_filter_start (s : Nat) : ∀ l : List Entity,
    (List.insertionSort entityLe l).filter (fun e => e.start == s) =
      l.filter (fun e => e.start == s)
  | [] => rfl
  | a :: l => by
    rw [List.insertionSort, orderedInsert_filter_start, insertionSort_filter_start s l]
    by_cases h : a.start = s <;> simp [h, List.filter_cons]

/-! ### Digit presence and the numeric extractor -/

lemma findFirstNumber_isSome : ∀ l : List Char,
    (findFirstNumber l).isSome = true ↔ ∃ c ∈ l, c.isDigit = true
  | [] => by simp [findFirstNumber]
  | c :: cs => by
    by_cases h : c.isDigit <;>
      simp [findFirstNumber, h, findFirstNumber_isSome cs]

/-! ### The claims -/

/-- C5: for all extractor outputs, the merged sequence produced by
`extract_entities` is sorted ascending by `start` (adjacent pairs), and
entities with equal `start` appear in extractor run order (statistical
first, then lexicon, then regex): for every offset `s`, the subsequence of
entities with that start offset equals the corresponding subsequence of the
concatenation `natasha ++ custom ++ regex`. -/
theorem C5_merge_sort_sorted_stable :
    ∀ (natasha custom regex : List Entity),
      List.Chain' entityLe (extract_entities natasha custom regex) ∧
      ∀ s : Nat,
        (extract_entities natasha custom regex).filter (fun e => e.start == s) =
          (natasha ++ custom ++ regex).filter (fun e => e.start == s) := by
  intro n c r
  constructor
  · exact (List.sorted_insertionSort entityLe (n ++ c ++ r)).chain'
  · intro s
    exact insertionSort_filter_start s (n ++ c ++ r)

/-- C8: numeric value extraction is total (never raises), returns a value
exactly when the matched span contains a digit, and parses the first
embedded numeric literal accepting both `.` and `,` as decimal separator:
`"42 килограмма"` gives 42 and `"2,5 килограмма"` gives 2.5 (the 64-bit
floats of the source are modelled by exact rationals; both example values
are exactly representable). -/
theorem C8_numeric_value_extraction :
    (∀ s : String,
        (extract_numeric_value s).isSome = true ↔ ∃ c ∈ s.toList, c.isDigit = true) ∧
    extract_numeric_value "42 килограмма" = some 42 ∧
    extract_numeric_value "2,5 килограмма" = some (5 / 2) := by
  refine ⟨fun s => ?_, ?_, ?_⟩
  · have h := findFirstNumber_isSome s.toList
    unfold extract_numeric_value
    cases hf : findFirstNumber s.toList <;> simp_all
  · have h1 : findFirstNumber "42 килограмма".toList = some ['4', '2'] := by decide
    have h2 : digitsToNat ['4', '2'] = 42 := by decide
    unfold extract_numeric_value
    rw [h1]
    show some (parseFloat ['4', '2']) = _
    have h3 : takeDigits ['4', '2'] = (['4', '2'], []) := by decide
    simp only [parseFloat, h3, h2]
    norm_num
  · have h1 : findFirstNumber "2,5 килограмма".toList = some ['2', ',', '5'] := by decide
    have h2 : digitsToNat ['2'] = 2 := by decide
    have h3 : digitsToNat ['5'] = 5 := by decide
    have h4 : takeDigits ['2', ',', '5'] = (['2'], [',', '5']) := by decide
    have h5 : takeDigits ['5'] = (['5'], []) := by decide
    unfold extract_numeric_value
    rw [h1]
    show some (parseFloat ['2', ',', '5']) = _
    simp only [parseFloat, h4, h5, h2, h3]
    norm_num

/-! ### Projections of the mapper and the fallback label -/

/-- The best-effort species label of the fallback heuristic, written as the
amended claim describes it: the stripped transcript text from just after
the (case-insensitively matched) marker up to the first `.` after the
marker — falling back to the first `,` only when no `.` occurs anywhere
after the marker — else the end of text; no label when the marker is
absent or the stripped text is empty. -/
def fallbackLabel (transcription : List Char) : Option String :=
  match markerText transcription with
  | none => none
  | some tx => if tx.isEmpty then none else some (String.mk tx)

lemma mkString_isEmpty_false (l : List Char) (h : ¬ l.isEmpty = true) :
    (String.mk l).isEmpty = false := by
  rw [Bool.eq_false_iff]
  intro hc
  rw [List.isEmpty_iff] at h
  exact h (by simpa [String.ext_iff] using (String.isEmpty_iff _).mp hc)

lemma prepare_animal_eq (d : Draft) (p : String) (t : List Char) :
    (prepare_db_records d p t).animal =
      { name := orUnknown d.name,
        species := orUnknown (fallbackSpecies d.name d.species t) } := rfl

lemma prepare_measurement_eq (d : Draft) (p : String) (t : List Char) :
    (prepare_db_records d p t).measurement =
      if truthyNum d.measurements.weight || truthyNum d.measurements.length ||
          truthyNum d.measurements.temperature || truthyNum d.measurements.age then
        some { weight := d.measurements.weight, length := d.measurements.length,
               height := none, temperature := d.measurements.temperature }
      else none := rfl

lemma prepare_feeding_eq (d : Draft) (p : String) (t : List Char) :
    (prepare_db_records d p t).feeding =
      if truthyStr d.feeding.food_type || truthyNum d.feeding.quantity then
        some { food_type := d.feeding.food_type, quantity := d.feeding.quantity, notes := none }
      else none := rfl

lemma fallbackSpecies_of_not_truthy (n sp : Option String) (t : List Char)
    (h : truthyStr sp = false) :
    fallbackSpecies n sp t =
      match fallbackLabel t with
      | some lbl => some lbl
      | none => sp := by
  unfold fallbackSpecies fallbackLabel
  simp only [h, Bool.not_false, Bool.or_true, if_true]
  cases hm : markerText t with
  | none => rfl
  | some tx =>
    dsimp only
    by_cases he : tx.isEmpty = true <;> simp [he]

lemma fallbackSpecies_of_truthy (n sp : Option String) (t : List Char)
    (h : truthyStr sp = true) :
    fallbackSpecies n sp t = sp := by
  unfold fallbackSpecies
  by_cases hc : (!truthyStr n || !truthyStr sp) = true
  · rw [if_pos hc]
    cases hm : markerText t with
    | none => rfl
    | some tx => simp [h]
  · rw [if_neg hc]

lemma fallbackLabel_not_empty (t : List Char) (lbl : String)
    (h : fallbackLabel t = some lbl) : lbl.isEmpty = false := by
  unfold fallbackLabel at h
  cases hm : markerText t with
  | none => rw [hm] at h; cases h
  | some tx =>
    rw [hm] at h
    dsimp only at h
    by_cases he : tx.isEmpty = true
    · rw [if_pos he] at h; cases h
    · rw [if_neg he] at h
      cases h
      exact mkString_isEmpty_false tx he

/-- C2 counterexample: with no extracted name or species, for the
transcript "Наблюдение за тигром, спит. конец" the comma (index 20) comes
before the period (index 26), so the claim's terminator rule predicts the
label "тигром"; the code searches for the period first and produces
"тигром, спит". -/
theorem C2_counterexample :
    (prepare_db_records {} "audio.wav"
        "Наблюдение за тигром, спит. конец".toList).animal.species = "тигром, спит" ∧
    ("тигром, спит" : String) ≠ "тигром" :=
  ⟨rfl, by decide⟩

/-- C2 (amended): when species is falsy, the species component of the
Animal identity is the fallback label — the stripped text after the
case-insensitive marker up to the first `.` after the marker, else (only
when no `.` occurs) the first `,`, else the end of text — and "Unknown"
when there is no such non-empty label; when species is truthy the fallback
label is never used. -/
theorem C2_amended_fallback :
    (∀ (d : Draft) (p : String) (t : List Char),
        truthyStr d.species = false →
        (prepare_db_records d p t).animal.species =
          match fallbackLabel t with
          | some lbl => lbl
          | none => orUnknown d.species) ∧
    (∀ (d : Draft) (p : String) (t : List Char),
        truthyStr d.species = true →
        (prepare_db_records d p t).animal.species = orUnknown d.species) := by
  constructor
  · intro d p t h
    rw [prepare_animal_eq]
    show orUnknown (fallbackSpecies d.name d.species t) = _
    rw [fallbackSpecies_of_not_truthy d.name d.species t h]
    cases hl : fallbackLabel t with
    | none => rfl
    | some lbl =>
      simp [orUnknown, fallbackLabel_not_empty t lbl hl]
  · intro d p t h
    rw [prepare_animal_eq]
    show orUnknown (fallbackSpecies d.name d.species t) = _
    rw [fallbackSpecies_of_truthy d.name d.species t h]

/-- C2 witness: the amended rule applied to the concrete transcript of the
counterexample. -/
theorem C2_witness :
    truthyStr (Draft.species {}) = false ∧
    (prepare_db_records {} "audio.wav"
        "Наблюдение за тигром, спит. конец".toList).animal.species = "тигром, спит" := by
  refine ⟨rfl, ?_⟩
  rw [C2_amended_fallback.1 {} "audio.wav" _ rfl]
  rfl

/-- C3 counterexample: a draft whose only measurement datum is the
non-null value `weight = 0.0` produces no Measurement payload, and a draft
whose only feeding datum is the non-null `quantity = 0.0` produces no
Feeding payload, because the source tests Python truthiness
(`any(measurements.values())`, `food_type or quantity`), not non-nullness. -/
theorem C3_counterexample :
    (prepare_db_records { measurements := { weight := some 0 } } "audio.wav" []).measurement
        = none ∧
    (prepare_db_records { feeding := { quantity := some 0 } } "audio.wav" []).feeding = none :=
  ⟨rfl, rfl⟩

/-- C3 (amended): the Measurement payload is present exactly when at least
one of weight/length/temperature/age is truthy (non-null and non-zero),
and the Feeding payload exactly when food_type is truthy (non-null,
non-empty) or quantity is truthy (non-null, non-zero). -/
theorem C3_amended_payload_presence :
    ∀ (d : Draft) (p : String) (t : List Char),
      ((prepare_db_records d p t).measurement ≠ none ↔
        (truthyNum d.measurements.weight = true ∨ truthyNum d.measurements.length = true ∨
         truthyNum d.measurements.temperature = true ∨ truthyNum d.measurements.age = true)) ∧
      ((prepare_db_records d p t).feeding ≠ none ↔
        (truthyStr d.feeding.food_type = true ∨ truthyNum d.feeding.quantity = true)) := by
  intro d p t
  constructor
  · rw [prepare_measurement_eq]
    by_cases hc : (truthyNum d.measurements.weight || truthyNum d.measurements.length ||
        truthyNum d.measurements.temperature || truthyNum d.measurements.age) = true
    · simp only [hc, if_true]
      simp only [Bool.or_eq_true] at hc
      simp [or_assoc] at hc ⊢
      tauto
    · simp only [Bool.not_eq_true] at hc
      simp only [hc, Bool.false_eq_true, if_false]
      simp only [Bool.or_eq_false_iff] at hc
      simp [hc.1.1.1, hc.1.1.2, hc.1.2, hc.2]
  · rw [prepare_feeding_eq]
    by_cases hc : (truthyStr d.feeding.food_type || truthyNum d.feeding.quantity) = true
    · simp only [hc, if_true]
      simp only [Bool.or_eq_true] at hc
      simp
      tauto
    · simp only [Bool.not_eq_true] at hc
      simp only [hc, Bool.false_eq_true, if_false]
      simp only [Bool.or_eq_false_iff] at hc
      simp [hc.1, hc.2]

/-- C9: in the mapper an empty-string name or species behaves exactly like
an unset (None) one — the full record outputs coincide — and the Animal
identity component equals the draft value exactly when that value is a
non-empty string. -/
theorem C9_empty_string_like_none :
    (∀ (d : Draft) (p : String) (t : List Char),
        prepare_db_records { d with name := some "" } p t =
          prepare_db_records { d with name := none } p t) ∧
    (∀ (d : Draft) (p : String) (t : List Char),
        prepare_db_records { d with species := some "" } p t =
          prepare_db_records { d with species := none } p t) ∧
    (∀ (d : Draft) (p : String) (t : List Char) (s : String), s ≠ "" →
        d.name = some s → (prepare_db_records d p t).animal.name = s) ∧
    (∀ (d : Draft) (p : String) (t : List Char) (s : String), s ≠ "" →
        d.species = some s → (prepare_db_records d p t).animal.species = s) := by
  refine ⟨fun d p t => rfl, fun d p t => ?_, fun d p t s hs hd => ?_, fun d p t s hs hd => ?_⟩
  · have hsp : orUnknown (fallbackSpecies d.name (some "") t) =
        orUnknown (fallbackSpecies d.name none t) := by
      unfold fallbackSpecies
      have hemp : ("" : String).isEmpty = true := rfl
      cases hm : markerText t with
      | none => simp [orUnknown, truthyStr, hemp]
      | some tx =>
        by_cases he : tx.isEmpty = true <;>
          simp [he, truthyStr, orUnknown, hemp]
    unfold prepare_db_records
    simp only
    rw [hsp]
  · have he : s.isEmpty = false := by
      rw [Bool.eq_false_iff]
      intro hc
      exact hs ((String.isEmpty_iff s).mp hc)
    rw [prepare_animal_eq]
    show orUnknown d.name = s
    rw [hd]
    simp [orUnknown, he]
  · have he : s.isEmpty = false := by
      rw [Bool.eq_false_iff]
      intro hc
      exact hs ((String.isEmpty_iff s).mp hc)
    have ht : truthyStr d.species = true := by
      rw [hd]
      simp [truthyStr, he]
    rw [prepare_animal_eq]
    show orUnknown (fallbackSpecies d.name d.species t) = s
    rw [fallbackSpecies_of_truthy d.name d.species t ht, hd]
    simp [orUnknown, he]

/-- C9 witness: the rules applied at concrete drafts. -/
theorem C9_witness :
    prepare_db_records { name := some "" } "audio.wav" [] =
      prepare_db_records { name := none } "audio.wav" [] ∧
    (prepare_db_records { species := some "лев" } "audio.wav" []).animal.species = "лев" := by
  constructor
  · exact C9_empty_string_like_none.1 {} "audio.wav" []
  · exact C9_empty_string_like_none.2.2.2 _ "audio.wav" [] "лев" (by decide) rfl

/-- C10 counterexample: a draft whose only measurement is the non-null age
0.0 produces no Measurement payload at all (Python truthiness again), so
the claim's "produces a Measurement payload with all four fields null"
fails at this input. -/
theorem C10_counterexample :
    (prepare_db_records { measurements := { age := some 0 } } "audio.wav" []).measurement
      = none := rfl

/-- C10 (amended): whenever the mapper emits a Measurement payload it
carries exactly the draft's weight, length and temperature with height
always null — the age measurement is never copied — and a draft whose only
measurement is a non-zero age produces a payload with all four fields
null. -/
theorem C10_amended_measurement_shape :
    (∀ (d : Draft) (p : String) (t : List Char) (rec : MeasurementRecord),
        (prepare_db_records d p t).measurement = some rec →
          rec = { weight := d.measurements.weight, length := d.measurements.length,
                  height := none, temperature := d.measurements.temperature }) ∧
    (∀ (d : Draft) (p : String) (t : List Char) (a : ℚ), a ≠ 0 →
        d.measurements = { weight := none, length := none, temperature := none,
                           age := some a } →
        (prepare_db_records d p t).measurement =
          some { weight := none, length := none, height := none, temperature := none }) := by
  constructor
  · intro d p t rec h
    rw [prepare_measurement_eq] at h
    by_cases hc : (truthyNum d.measurements.weight || truthyNum d.measurements.length ||
        truthyNum d.measurements.temperature || truthyNum d.measurements.age) = true
    · rw [if_pos hc] at h
      exact (Option.some_inj.mp h).symm
    · rw [if_neg hc] at h
      cases h
  · intro d p t a ha hm
    rw [prepare_measurement_eq, hm]
    have hz : (a == 0) = false := beq_eq_false_iff_ne.mpr ha
    simp [truthyNum, hz]

/-- C10 witness: both parts applied at a concrete draft with age 5. -/
theorem C10_witness :
    (5 : ℚ) ≠ 0 ∧
    (prepare_db_records { measurements := { age := some 5 } } "audio.wav" []).measurement =
      some { weight := none, length := none, height := none, temperature := none } :=
  ⟨by decide,
    C10_amended_measurement_shape.2 { measurements := { age := some 5 } } "audio.wav" [] 5
      (by decide) rfl⟩

/-- C4: for every entity sequence whose first food-kind entity is `fe`,
`feeding.quantity` equals the value of the first weight-kind entity in the
full sequence whose start offset is strictly within 20 positions of
`fe.start` (before or after it), and stays unset when there is none.  The
fixed threshold `abs(entity.start - food_entity.start) < 20` is from
entity_extraction.py line 385. -/
theorem C4_feeding_proximity_join :
    ∀ (text : List Char) (l : List Entity) (fe : Entity),
      l.find? (fun e => e.type == "food") = some fe →
      (extract_animal_info text l).feeding.quantity =
        match l.find? (fun e => e.type == "weight" && natDist e.start fe.start < 20) with
        | some we => we.value
        | none => none := by
  intro text l fe hf
  rw [extract_quantity]
  unfold joinQuantity
  rw [hf]
  dsimp only
  cases hw : l.find? (fun e => e.type == "weight" && natDist e.start fe.start < 20) with
  | none => rfl
  | some we => rfl

/-- C4 witness: the claim's own example — food at start 80, weight
entities at starts 85 (distance 5) and 150 (distance 70) — yields the
value of the entity at start 85. -/
theorem C4_witness :
    (List.find? (fun e => e.type == "food")
        ([⟨"мясо", "food", 80, 84, none, none⟩,
          ⟨"5 килограммов", "weight", 85, 98, some 5, none⟩,
          ⟨"7 килограммов", "weight", 150, 163, some 7, none⟩] : List Entity) =
      some ⟨"мясо", "food", 80, 84, none, none⟩) ∧
    (extract_animal_info []
        [⟨"мясо", "food", 80, 84, none, none⟩,
         ⟨"5 килограммов", "weight", 85, 98, some 5, none⟩,
         ⟨"7 килограммов", "weight", 150, 163, some 7, none⟩]).feeding.quantity = some 5 := by
  refine ⟨rfl, ?_⟩
  rw [C4_feeding_proximity_join []
      [⟨"мясо", "food", 80, 84, none, none⟩,
       ⟨"5 килограммов", "weight", 85, 98, some 5, none⟩,
       ⟨"7 килограммов", "weight", 150, 163, some 7, none⟩]
      ⟨"мясо", "food", 80, 84, none, none⟩ rfl]
  rfl

/-- C7: a temperature-kind entity is routed by the body-reference test
`hasBodyMarker` — the occurrence of "тела" in the window of the original
text from 10 characters before the entity's start to 10 after its end,
clamped to the text bounds — into `measurements.temperature` when the
marker is present and into `environment.temperature` otherwise, never
touching the other slot; on "Температура тела 35 градусов" (temperature
entity at offsets 17-28, the extractor interface output) the result has
measurements.temperature 35 and environment.temperature unset, and on
"Температура воздуха 22 градуса" (entity at 20-30) it has
environment.temperature 22 and measurements.temperature unset. -/
theorem C7_temperature_routing :
    (∀ (text : List Char) (r : Draft) (e : Entity),
        e.type = "temperature" →
        (hasBodyMarker text e = true →
          (applyEntity text r e).measurements.temperature = e.value ∧
          (applyEntity text r e).environment.temperature = r.environment.temperature) ∧
        (hasBodyMarker text e = false →
          (applyEntity text r e).environment.temperature = e.value ∧
          (applyEntity text r e).measurements.temperature = r.measurements.temperature)) ∧
    (extract_animal_info "Температура тела 35 градусов".toList
        [⟨"35 градусов", "temperature", 17, 28, some 35, none⟩]).measurements.temperature
      = some 35 ∧
    (extract_animal_info "Температура тела 35 градусов".toList
        [⟨"35 градусов", "temperature", 17, 28, some 35, none⟩]).environment.temperature
      = none ∧
    (extract_animal_info "Температура воздуха 22 градуса".toList
        [⟨"22 градуса", "temperature", 20, 30, some 22, none⟩]).environment.temperature
      = some 22 ∧
    (extract_animal_info "Температура воздуха 22 градуса".toList
        [⟨"22 градуса", "temperature", 20, 30, some 22, none⟩]).measurements.temperature
      = none := by
  refine ⟨fun text r e ht => ⟨fun hb => ?_, fun hb => ?_⟩, rfl, rfl, rfl, rfl⟩
  · rw [applyEntity_meas_temp, applyEntity_env_temp]
    simp [ht, hb]
  · rw [applyEntity_meas_temp, applyEntity_env_temp]
    simp [ht, hb]

/-- C7 witness: the routing rule applied to a concrete body-marked
temperature entity. -/
theorem C7_witness :
    (Entity.type ⟨"36 градусов", "temperature", 0, 11, some 36, none⟩ = "temperature") ∧
    hasBodyMarker "тела 36 градусов".toList
        ⟨"36 градусов", "temperature", 0, 11, some 36, none⟩ = true ∧
    (applyEntity "тела 36 градусов".toList (initDraft [])
        ⟨"36 градусов", "temperature", 0, 11, some 36, none⟩).measurements.temperature
      = some 36 :=
  ⟨rfl, rfl, ((C7_temperature_routing.1 "тела 36 градусов".toList (initDraft [])
      ⟨"36 градусов", "temperature", 0, 11, some 36, none⟩ rfl).1 rfl).1⟩

/-- C1 counterexample: two temperature entities both routed to the body
slot (both context windows contain "тела"); the claim predicts the first
value 35 is kept, but the unguarded assignment keeps the last value 39. -/
theorem C1_counterexample :
    (extract_animal_info
        "Температура тела 35 градусов, температура тела 39 градусов".toList
        [⟨"35 градусов", "temperature", 17, 28, some 35, none⟩,
         ⟨"39 градусов", "temperature", 47, 58, some 39, none⟩]).measurements.temperature
      = some 39 ∧ some (39 : ℚ) ≠ some (35 : ℚ) :=
  ⟨rfl, by decide⟩

/-- C1 (amended): the two temperature slots each keep the value of the
LAST temperature-kind entity routed to that slot (the temperature branch
assigns without a None guard, so a later same-routing entity overwrites an
earlier one), while every other scalar field of the draft, once set, is
never overwritten by any later entity of the synthesis pass. -/
theorem C1_amended_slot_policy :
    (∀ (text : List Char) (l : List Entity),
        ((extract_animal_info text l).measurements.temperature =
          match l.reverse.find? (isBodyTempB text) with
          | some e => e.value
          | none => none) ∧
        ((extract_animal_info text l).environment.temperature =
          match l.reverse.find? (isEnvTempB text) with
          | some e => e.value
          | none => none)) ∧
    (∀ (text : List Char) (l : List Entity) (r : Draft),
        (∀ v, r.name = some v → (l.foldl (applyEntity text) r).name = some v) ∧
        (∀ v, r.species = some v → (l.foldl (applyEntity text) r).species = some v) ∧
        (∀ v, r.behavior = some v → (l.foldl (applyEntity text) r).behavior = some v) ∧
        (∀ v, r.health_status = some v →
          (l.foldl (applyEntity text) r).health_status = some v) ∧
        (∀ v, r.feeding.food_type = some v →
          (l.foldl (applyEntity text) r).feeding.food_type = some v) ∧
        (∀ v, r.measurements.weight = some v →
          (l.foldl (applyEntity text) r).measurements.weight = some v) ∧
        (∀ v, r.measurements.length = some v →
          (l.foldl (applyEntity text) r).measurements.length = some v) ∧
        (∀ v, r.measurements.age = some v →
          (l.foldl (applyEntity text) r).measurements.age = some v)) := by
  refine ⟨fun text l => ⟨extract_meas_temp text l, extract_env_temp text l⟩,
    fun text l r => ⟨fun v h => ?_, fun v h => ?_, fun v h => ?_, fun v h => ?_,
      fun v h => ?_, fun v h => ?_, fun v h => ?_, fun v h => ?_⟩⟩
  · rw [synth_name text l r, h]
  · rw [synth_species text l r, h]
  · rw [synth_behavior text l r, h]
  · rw [synth_health text l r, h]
  · rw [synth_food text l r, h]
  · rw [synth_weight text l r, h]
  · rw [synth_length text l r, h]
  · rw [synth_age text l r, h]

/-- C1 witness: an already-set name survives a later person entity. -/
theorem C1_witness :
    (Draft.name { name := some "Яша" } = some "Яша") ∧
    ([⟨"Маша", "person", 9, 13, none, none⟩].foldl (applyEntity [])
        { name := some "Яша" }).name = some "Яша" :=
  ⟨rfl, (C1_amended_slot_policy.2 [] [⟨"Маша", "person", 9, 13, none, none⟩]
      { name := some "Яша" }).1 "Яша" rfl⟩

/-- C6 counterexample: with a first weight-kind entity carrying a null
value (start 5) and a later one carrying 42 (start 20), the claim predicts
measurements.weight equals the first entity's (null) value, but the
None-guarded assignment lets the later entity fill the slot with 42. -/
theorem C6_counterexample :
    (extract_animal_info []
        [⟨"кг", "weight", 5, 7, none, none⟩,
         ⟨"42 кг", "weight", 20, 25, some 42, none⟩]).measurements.weight = some 42 ∧
    some (42 : ℚ) ≠ (none : Option ℚ) :=
  ⟨rfl, by decide⟩

/-- C6 (amended): each text-payload field (name from person entities,
species, behavior, health_status, feeding.food_type) equals the text of
the first entity of the corresponding kind in sequence order, and each
numeric field (weight, length, age) equals the first non-null value among
the entities of its kind — entities after the one that sets the field are
discarded for it; in particular, with weight entities at start 5 (value 5)
and start 20 (value 20), measurements.weight is the value from start 5. -/
theorem C6_amended_first_match :
    (∀ (text : List Char) (l : List Entity),
        ((extract_animal_info text l).name = firstText "person" l) ∧
        ((extract_animal_info text l).species = firstText "animal_species" l) ∧
        ((extract_animal_info text l).measurements.weight = firstVal "weight" l) ∧
        ((extract_animal_info text l).measurements.length = firstVal "length" l) ∧
        ((extract_animal_info text l).measurements.age = firstVal "age" l) ∧
        ((extract_animal_info text l).behavior = firstText "behavior" l) ∧
        ((extract_animal_info text l).health_status = firstText "health_status" l) ∧
        ((extract_animal_info text l).feeding.food_type = firstText "food" l)) ∧
    (extract_animal_info []
        [⟨"5 кг", "weight", 5, 9, some 5, none⟩,
         ⟨"20 кг", "weight", 20, 25, some 20, none⟩]).measurements.weight = some 5 := by
  refine ⟨fun text l => ⟨extract_name text l, extract_species text l, extract_weight text l,
    extract_length text l, extract_age text l, extract_behavior text l, extract_health text l,
    extract_food text l⟩, rfl⟩

end ZooAssistant
